import Mathlib

/-!
Verification of the result-correlation logic of the `video-transcribe`
example scripts.

The repository's executing logic lives in two Python files:
`src/examples/autogen-agent.py` (class `VideoTranscriptionCapability`,
method `transcribe_video`, lines 24-65) and `src/examples/crewai-agent.py`
(class `VideoTranscriptionTool`, method `_run`, lines 32-89).  Both run an
external process, and on a zero exit status scan an output directory for
files ending in `_transcription.json`, pick the one with the greatest
creation time, parse it as JSON and reshape a few fields into a result
dictionary; every failure path is caught by a catch-all `except` that
returns `{'success': False, 'error': str(e)}`.

The shallow embedding below mirrors that code statement by statement:

* JSON values are the inductive `Json` (numbers are integers, which covers
  every number the claims touch: the code only moves numbers around, never
  computes with them; objects are association lists with distinct keys, as
  produced by `json.load`).
* Python expressions that can raise are functions into `Except String`,
  the error being `str(e)` of the raised exception.  `pyGet` is
  `dict.get` (raising `AttributeError` on a non-dict receiver), `pyIndex`
  is `d[k]` subscription, `pyMaxBy` is `max(..., key=...)` (first maximal
  element wins, exactly as Python's `max` keeps the current element unless
  a strictly greater key appears).
* The state of the output directory at the moment of the call is a
  `DirState`: either the exception message of a failing `os.listdir`, or
  the list of directory entries, each carrying its name, creation time and
  the outcome of opening-and-`json.load`-ing it.  The directory-reading
  primitives `listdirM` and `readParseM` thread this state explicitly and,
  being reads, return it unchanged — the code never writes to the
  filesystem.
* The external process run is a `ProcResult` (return code and stderr text),
  an input to the model: the claims only concern what happens after
  `subprocess.run` returns.
-/

namespace VideoTranscribe

/-- JSON values, as produced by Python's `json.load` / consumed by
`json.dumps`.  Numbers are modelled as integers (no claim involves
fractional values and the code never computes with numbers). -/
inductive Json where
  | null : Json
  | bool : Bool → Json
  | num : Int → Json
  | str : String → Json
  | arr : List Json → Json
  | obj : List (String × Json) → Json

/-- Python truthiness of a JSON value (`if x:` / the `or` operator):
`None`, `False`, `0`, `""`, `[]` and `{}` are falsy. -/
def Json.truthy : Json → Bool
  | .null => false
  | .bool b => b
  | .num n => n != 0
  | .str s => s != ""
  | .arr xs => !xs.isEmpty
  | .obj kvs => !kvs.isEmpty

/-- Key lookup in an association list (Python dict lookup; keys are
distinct in every dict `json.load` yields, so first-match is exact). -/
def lookupList : List (String × Json) → String → Option Json
  | [], _ => none
  | (key, v) :: rest, k => if k = key then some v else lookupList rest k

/-- Lookup of a key in a JSON value; `none` on non-objects. -/
def Json.lookup : Json → String → Option Json
  | .obj kvs, k => lookupList kvs k
  | _, _ => none

/-- Whether a JSON object has a given key. -/
def Json.hasKey (j : Json) (k : String) : Bool :=
  (j.lookup k).isSome

/-- The keys of a JSON object, in order. -/
def Json.keys : Json → List String
  | .obj kvs => kvs.map (fun kv => kv.1)
  | _ => []

/-- Python `d.get(k, dflt)`: returns the value at `k`, the default when
the key is absent, and raises `AttributeError` when the receiver is not a
dict (e.g. `None.get(...)` or `"s".get(...)`). -/
def pyGet (j : Json) (k : String) (dflt : Json) : Except String Json :=
  match j with
  | .obj kvs => .ok ((lookupList kvs k).getD dflt)
  | _ => .error ("AttributeError: object has no attribute get: " ++ k)

/-- Python `d[k]` subscription: raises `KeyError` when the key is absent
and `TypeError` when the receiver is not a dict. -/
def pyIndex (j : Json) (k : String) : Except String Json :=
  match j with
  | .obj kvs =>
      match lookupList kvs k with
      | some v => .ok v
      | none => .error ("KeyError: " ++ k)
  | _ => .error ("TypeError: object is not subscriptable: " ++ k)

/-- Python `a or b` for strings (`result.stderr or 'Transcription failed'`):
the left operand when non-empty, otherwise the right one. -/
def pyStrOr (a b : String) : String :=
  if a = "" then b else a

/-- Python `max(l, key=key)` wrapped in the `if l:` guard the code uses:
`none` on the empty list (the code never calls `max` there); otherwise the
first element whose key no later element strictly exceeds — Python's `max`
keeps the current maximum unless a strictly greater key appears. -/
def pyMaxBy {α : Type} (key : α → Int) : List α → Option α
  | [] => none
  | x :: xs => some (xs.foldl (fun best y => if key y > key best then y else best) x)

/-- One entry of the output directory at the moment of the call: its file
name, its creation time (`os.path.getctime`), and the outcome of opening
it and running `json.load` on its contents (`.error` carries `str(e)` of
the raised exception for unreadable or malformed files). -/
structure FileEntry where
  name : String
  ctime : Int
  parse : Except String Json

/-- The state of the output directory: `.error m` when `os.listdir`
itself raises (missing or unreadable directory, `m` being `str(e)`),
otherwise the list of entries. -/
abbrev DirState := Except String (List FileEntry)

/-- Outcome of `subprocess.run(cmd, capture_output=True, text=True, ...)`:
the fields the code reads. -/
structure ProcResult where
  returncode : Int
  stderr : String

/-- `os.listdir(output_dir)` as an explicit state-passing read: it returns
the listing (or raises) and leaves the directory state unchanged. -/
def listdirM (st : DirState) : Except String (List FileEntry) × DirState :=
  (st, st)

/-- `open(path).read()` followed by `json.load`, as an explicit
state-passing read: returns the entry's parse outcome, state unchanged. -/
def readParseM (e : FileEntry) (st : DirState) : Except String Json × DirState :=
  (e.parse, st)

/-- Python `s.endswith(sfx)`: whether `sfx` is a suffix of `s`, computed
on the character lists so that concrete instances evaluate. -/
def strEndsWith (s sfx : String) : Bool :=
  sfx.data.isSuffixOf s.data

/-- The filename convention both scripts filter on:
`f.endswith('_transcription.json')`. -/
def artifactNameEnd : String := "_transcription.json"

/-- The failure dictionary both scripts build from the process outcome:
`{'success': False, 'error': result.stderr or 'Transcription failed'}`. -/
def procFailObj (proc : ProcResult) : Json :=
  .obj [("success", .bool false), ("error", .str (pyStrOr proc.stderr "Transcription failed"))]

/-- The failure dictionary the catch-all `except Exception as e` handler
builds: `{'success': False, 'error': str(e)}`. -/
def exceptObj (m : String) : Json :=
  .obj [("success", .bool false), ("error", .str m)]

/-- The `try ... except Exception as e` wrapper around each method body:
a value returned normally passes through, a raised exception becomes
`{'success': False, 'error': str(e)}`. -/
def wrapTry : Except String Json → Json
  | .ok r => r
  | .error m => exceptObj m

/-- Reading and parsing the selected artifact (autogen lines 45-46,
crewai lines 63-64): `open` + `json.load` through the state-passing read,
then normalization of the parsed document; a raised exception propagates. -/
def parseStage (normalize : Json → Except String Json) (latest : FileEntry)
    (st1 : DirState) : Except String Json × DirState :=
  match readParseM latest st1 with
  | (.error m, st2) => (.error m, st2)
  | (.ok data, st2) => (normalize data, st2)

/-- Filtering and newest-wins selection (autogen lines 41-44, crewai lines
59-62): keep the names ending in `sfx`; with `if json_files:` false, fall
through to the `fallback` record, otherwise take
`max(json_files, key=getctime)` and read it. -/
def selectStage (sfx : String) (normalize : Json → Except String Json) (fallback : Json)
    (entries : List FileEntry) (st1 : DirState) : Except String Json × DirState :=
  match pyMaxBy (fun f => f.ctime) (entries.filter (fun f => strEndsWith f.name sfx)) with
  | none => (.ok fallback, st1)
  | some latest => parseStage normalize latest st1

/-- The shared locate step of both scripts (autogen lines 40-54, crewai
lines 58-78): list the output directory, filter names ending in
`_transcription.json`, and if any match, pick the one with the greatest
creation time, read and parse it and normalize the parsed document with
`normalize`; with no match, fall through to the `fallback` record.  The
directory state is threaded through every filesystem read. -/
def locateStep (sfx : String) (normalize : Json → Except String Json) (fallback : Json)
    (st : DirState) : Except String Json × DirState :=
  match listdirM st with
  | (.error m, st1) => (.error m, st1)
  | (.ok entries, st1) => selectStage sfx normalize fallback entries st1

/-- The tail of the Python `or` expression on autogen line 49: given the
already-computed `enhText`, Python's `enhText or data['transcription']['fullText']`
is `enhText` when truthy, otherwise the raw full text, whose two
subscriptions may each raise. -/
def autogenTranscriptionText (data enhText : Json) : Except String Json :=
  if enhText.truthy then pure enhText
  else do
    let tr ← pyIndex data "transcription"
    pyIndex tr "fullText"

/-- The success dictionary of `autogen-agent.py` lines 47-54, built from
the parsed artifact `data`; each value expression in the Python dict
literal is evaluated in order and may raise:
`data.get('enhancement', {}).get('enhancedText') or
data['transcription']['fullText']`, then the `summary`, `keyPoints`,
`topics` and `sentiment` lookups on the enhancement section. -/
def autogenSuccessRecord (data : Json) : Except String Json := do
  let enh ← pyGet data "enhancement" (.obj [])
  let enhText ← pyGet enh "enhancedText" .null
  let transcriptionText ← autogenTranscriptionText data enhText
  let summary ← pyGet enh "summary" .null
  let keyPoints ← pyGet enh "keyPoints" (.arr [])
  let topics ← pyGet enh "topics" (.arr [])
  let sentiment ← pyGet enh "sentiment" .null
  pure (.obj [("success", .bool true), ("transcription", transcriptionText),
    ("summary", summary), ("keyPoints", keyPoints), ("topics", topics),
    ("sentiment", sentiment)])

/-- The tail of the Python `or` expression on crewai line 71: given the
already-computed `enhText`, Python's
`enhText or transcription.get('fullText', '')` is `enhText` when truthy,
otherwise the raw full text with default `''`. -/
def crewaiTranscriptionText (transcriptionSec enhText : Json) : Except String Json :=
  if enhText.truthy then pure enhText
  else pyGet transcriptionSec "fullText" (.str "")

/-- The success dictionary of `crewai-agent.py` lines 66-78:
`enhancement = data.get('enhancement', {})`,
`transcription = data.get('transcription', {})`, then the dict literal
with `enhancement.get('enhancedText') or transcription.get('fullText', '')`,
defaults `''` for summary, `[]` for key points and topics, `'neutral'` for
sentiment, `0` for confidence, and the nested
`data.get('metadata', {}).get('processingOptions', {}).get('outputFiles', [])`. -/
def crewaiSuccessRecord (data : Json) : Except String Json := do
  let enhancement ← pyGet data "enhancement" (.obj [])
  let transcriptionSec ← pyGet data "transcription" (.obj [])
  let enhText ← pyGet enhancement "enhancedText" .null
  let transcriptionText ← crewaiTranscriptionText transcriptionSec enhText
  let summary ← pyGet enhancement "summary" (.str "")
  let keyPoints ← pyGet enhancement "keyPoints" (.arr [])
  let topics ← pyGet enhancement "topics" (.arr [])
  let sentiment ← pyGet enhancement "sentiment" (.str "neutral")
  let confidence ← pyGet transcriptionSec "confidence" (.num 0)
  let metadata ← pyGet data "metadata" (.obj [])
  let processingOptions ← pyGet metadata "processingOptions" (.obj [])
  let outputFiles ← pyGet processingOptions "outputFiles" (.arr [])
  pure (.obj [("success", .bool true), ("transcription", transcriptionText),
    ("summary", summary), ("key_points", keyPoints), ("topics", topics),
    ("sentiment", sentiment), ("confidence", confidence),
    ("output_files", outputFiles)])

/-- `VideoTranscriptionCapability.transcribe_video` of `autogen-agent.py`
(lines 24-65), after `subprocess.run` returned `proc` and with the output
directory in state `st`: on a zero return code run the locate step
(falling back to the stderr-based failure record when no file matches),
otherwise return that failure record directly; the catch-all `except`
turns any raised exception into `{'success': False, 'error': str(e)}`. -/
def VideoTranscriptionCapability.transcribe_video (proc : ProcResult) (st : DirState) : Json :=
  wrapTry
    (if proc.returncode = 0 then
      (locateStep artifactNameEnd autogenSuccessRecord (procFailObj proc) st).1
    else .ok (procFailObj proc))

/-- The validation record of `crewai-agent.py` line 39:
`json.dumps({"error": "video_path is required"})`. -/
def videoPathRequired : Json :=
  .obj [("error", .str "video_path is required")]

/-- `VideoTranscriptionTool._run` of `crewai-agent.py` (lines 28-89),
modelled at the JSON-value level (the Python code serializes each returned
dictionary with `json.dumps`; the model returns the dictionary itself).
`inputJson` is the outcome of `json.loads(input_data)` on the tool's
string input; `proc` and `st` are as in `transcribe_video`.  The body:
parse the input, read `video_path` (raising on a non-dict input), return
the validation record when it is falsy, then run the process and locate
the artifact exactly as the autogen script does, normalizing with the
crewai field set. -/
def VideoTranscriptionTool._run (inputJson : Except String Json) (proc : ProcResult)
    (st : DirState) : Json :=
  wrapTry (do
    let data ← inputJson
    let vp ← pyGet data "video_path" .null
    if vp.truthy then
      if proc.returncode = 0 then
        (locateStep artifactNameEnd crewaiSuccessRecord (procFailObj proc) st).1
      else pure (procFailObj proc)
    else pure videoPathRequired)

/-! ### Derived record predicates -/

/-- The spec's ResultRecord invariant, read off a returned dictionary:
a boolean `success` field is present, and either it is `True` with a
`transcription` field and no `error` field, or it is `False` with an
`error` field and no `transcription` field. -/
def resultInvariant (r : Json) : Bool :=
  match r.lookup "success" with
  | some (.bool true) => r.hasKey "transcription" && !(r.hasKey "error")
  | some (.bool false) => r.hasKey "error" && !(r.hasKey "transcription")
  | _ => false

/-- The uniform failure shape both scripts produce on every recovered
failure: exactly `{'success': False, 'error': <string>}`. -/
def isFailureRecord : Json → Bool
  | .obj [("success", .bool false), ("error", .str _)] => true
  | _ => false

/-! ### Helper lemmas -/

lemma except_bind_ok {α β : Type} (a : α) (f : α → Except String β) :
    ((Except.ok a : Except String α) >>= f) = f a := rfl

lemma except_bind_error {α β : Type} (m : String) (f : α → Except String β) :
    ((Except.error m : Except String α) >>= f) = Except.error m := rfl

lemma except_pure_bind {α β : Type} (a : α) (f : α → Except String β) :
    ((pure a : Except String α) >>= f) = f a := rfl

lemma bind_ok_inv {α β : Type} {x : Except String α} {f : α → Except String β} {b : β}
    (h : (x >>= f) = .ok b) : ∃ a, x = .ok a ∧ f a = .ok b := by
  cases x with
  | error m => rw [except_bind_error] at h; exact Except.noConfusion h
  | ok a => exact ⟨a, rfl, by rwa [except_bind_ok] at h⟩

lemma pyGet_ok_inv {j : Json} {k : String} {dflt v : Json}
    (h : pyGet j k dflt = .ok v) :
    ∃ kvs, j = .obj kvs ∧ v = (lookupList kvs k).getD dflt := by
  cases j with
  | obj kvs => exact ⟨kvs, rfl, (Except.ok.inj h).symm⟩
  | null => exact Except.noConfusion h
  | bool b => exact Except.noConfusion h
  | num n => exact Except.noConfusion h
  | str s => exact Except.noConfusion h
  | arr xs => exact Except.noConfusion h

lemma pyGet_absent {kvs : List (String × Json)} {k : String} {dflt v : Json}
    (hg : pyGet (.obj kvs) k dflt = .ok v) (habs : lookupList kvs k = none) :
    v = dflt := by
  have h := Except.ok.inj hg
  rw [habs] at h
  exact h.symm

lemma pyMaxBy_none_iff {α : Type} (key : α → Int) (l : List α) :
    pyMaxBy key l = none ↔ l = [] := by
  cases l with
  | nil => simp [pyMaxBy]
  | cons x xs => simp [pyMaxBy]

lemma foldl_pick_max {α : Type} (key : α → Int) (e : α) (xs : List α) :
    ∀ acc : α, (acc = e ∨ e ∈ xs) →
      (∀ f, (f = acc ∨ f ∈ xs) → f ≠ e → key f < key e) →
      xs.foldl (fun best y => if key y > key best then y else best) acc = e := by
  induction xs with
  | nil =>
    intro acc h1 _
    rcases h1 with rfl | h
    · rfl
    · cases h
  | cons x xs ih =>
    intro acc h1 h2
    rw [List.foldl_cons]
    refine ih _ ?_ ?_
    · by_cases hxs : e ∈ xs
      · exact Or.inr hxs
      left
      have hmem1 : acc = e ∨ e = x := by
        rcases h1 with rfl | hmem
        · exact Or.inl rfl
        · rcases List.mem_cons.mp hmem with h | h
          · exact Or.inr h
          · exact absurd h hxs
      by_cases hgt : key x > key acc
      · rw [if_pos hgt]
        by_cases hxe : x = e
        · exact hxe
        · rcases hmem1 with rfl | rfl
          · have := h2 x (Or.inr (List.mem_cons_self x xs)) hxe
            omega
          · exact absurd rfl hxe
      · rw [if_neg hgt]
        rcases hmem1 with rfl | hex
        · rfl
        · by_cases hae : acc = e
          · exact hae
          · have hlt := h2 acc (Or.inl rfl) hae
            rw [hex] at hlt
            exact absurd (show key x > key acc by omega) hgt
    · intro f hf hne
      rcases hf with rfl | hfx
      · by_cases hgt : key x > key acc
        · rw [if_pos hgt] at hne ⊢
          exact h2 x (Or.inr (List.mem_cons_self x xs)) hne
        · rw [if_neg hgt] at hne ⊢
          exact h2 acc (Or.inl rfl) hne
      · exact h2 f (Or.inr (List.mem_cons_of_mem x hfx)) hne

lemma pyMaxBy_unique_max {α : Type} (key : α → Int) (l : List α) (e : α)
    (he : e ∈ l) (hmax : ∀ f ∈ l, f ≠ e → key f < key e) :
    pyMaxBy key l = some e := by
  cases l with
  | nil => cases he
  | cons x xs =>
    unfold pyMaxBy
    refine congrArg some (foldl_pick_max key e xs x ?_ ?_)
    · rcases List.mem_cons.mp he with h | h
      · exact Or.inl h.symm
      · exact Or.inr h
    · intro f hf hne
      exact hmax f (List.mem_cons.mpr hf) hne

lemma parseStage_eq (normalize : Json → Except String Json) (latest : FileEntry)
    (st1 : DirState) :
    parseStage normalize latest st1 = (latest.parse >>= normalize, st1) := by
  unfold parseStage readParseM
  cases latest.parse with
  | error m => rfl
  | ok d => rfl

lemma selectStage_none (sfx : String) (normalize : Json → Except String Json)
    (fallback : Json) (entries : List FileEntry) (st1 : DirState)
    (h : pyMaxBy (fun f => f.ctime) (entries.filter (fun f => strEndsWith f.name sfx)) = none) :
    selectStage sfx normalize fallback entries st1 = (.ok fallback, st1) := by
  unfold selectStage
  rw [h]

lemma selectStage_some (sfx : String) (normalize : Json → Except String Json)
    (fallback : Json) (entries : List FileEntry) (st1 : DirState) (e : FileEntry)
    (h : pyMaxBy (fun f => f.ctime) (entries.filter (fun f => strEndsWith f.name sfx)) = some e) :
    selectStage sfx normalize fallback entries st1 = (e.parse >>= normalize, st1) := by
  unfold selectStage
  rw [h]
  exact parseStage_eq normalize e st1

lemma parseStage_snd (normalize : Json → Except String Json) (latest : FileEntry)
    (st1 : DirState) : (parseStage normalize latest st1).2 = st1 := by
  rw [parseStage_eq]

lemma selectStage_snd (sfx : String) (normalize : Json → Except String Json)
    (fallback : Json) (entries : List FileEntry) (st1 : DirState) :
    (selectStage sfx normalize fallback entries st1).2 = st1 := by
  unfold selectStage
  cases h : pyMaxBy (fun f => f.ctime) (entries.filter (fun f => strEndsWith f.name sfx)) with
  | none => rfl
  | some latest => exact parseStage_snd normalize latest st1

lemma locateStep_snd (sfx : String) (normalize : Json → Except String Json)
    (fallback : Json) (st : DirState) :
    (locateStep sfx normalize fallback st).2 = st := by
  cases st with
  | error m => rfl
  | ok entries => exact selectStage_snd sfx normalize fallback entries (.ok entries)

lemma locateStep_ok (sfx : String) (normalize : Json → Except String Json)
    (fallback : Json) (entries : List FileEntry) :
    locateStep sfx normalize fallback (.ok entries) =
      selectStage sfx normalize fallback entries (.ok entries) := rfl

/-! ### Evaluation lemmas for `transcribe_video` -/

lemma transcribe_video_rc_ne (proc : ProcResult) (st : DirState)
    (h : ¬ proc.returncode = 0) :
    VideoTranscriptionCapability.transcribe_video proc st = procFailObj proc := by
  unfold VideoTranscriptionCapability.transcribe_video
  rw [if_neg h]
  rfl

lemma transcribe_video_rc_eq (proc : ProcResult) (st : DirState)
    (h : proc.returncode = 0) :
    VideoTranscriptionCapability.transcribe_video proc st =
      wrapTry (locateStep artifactNameEnd autogenSuccessRecord (procFailObj proc) st).1 := by
  unfold VideoTranscriptionCapability.transcribe_video
  rw [if_pos h]

lemma transcribe_video_listdir_error (proc : ProcResult) (m : String)
    (h0 : proc.returncode = 0) :
    VideoTranscriptionCapability.transcribe_video proc (.error m) = exceptObj m := by
  rw [transcribe_video_rc_eq proc (.error m) h0]
  rfl

lemma transcribe_video_no_match (proc : ProcResult) (entries : List FileEntry)
    (h0 : proc.returncode = 0)
    (hempty : entries.filter (fun f => strEndsWith f.name artifactNameEnd) = []) :
    VideoTranscriptionCapability.transcribe_video proc (.ok entries) = procFailObj proc := by
  rw [transcribe_video_rc_eq proc (.ok entries) h0, locateStep_ok,
    selectStage_none _ _ _ _ _ (by rw [hempty]; rfl)]
  rfl

lemma transcribe_video_sel (proc : ProcResult) (entries : List FileEntry) (e : FileEntry)
    (h0 : proc.returncode = 0)
    (hsel : pyMaxBy (fun f => f.ctime)
      (entries.filter (fun f => strEndsWith f.name artifactNameEnd)) = some e) :
    VideoTranscriptionCapability.transcribe_video proc (.ok entries) =
      wrapTry (e.parse >>= autogenSuccessRecord) := by
  rw [transcribe_video_rc_eq proc (.ok entries) h0, locateStep_ok,
    selectStage_some _ _ _ _ _ e hsel]

/-! ### Evaluation lemmas for `_run` -/

lemma run_eval (kvs : List (String × Json)) (proc : ProcResult) (st : DirState) :
    VideoTranscriptionTool._run (.ok (.obj kvs)) proc st =
      wrapTry (if ((lookupList kvs "video_path").getD Json.null).truthy = true then
          (if proc.returncode = 0 then
            (locateStep artifactNameEnd crewaiSuccessRecord (procFailObj proc) st).1
          else pure (procFailObj proc))
        else pure videoPathRequired) := rfl

lemma run_validation (kvs : List (String × Json)) (proc : ProcResult) (st : DirState)
    (h : ((lookupList kvs "video_path").getD Json.null).truthy = false) :
    VideoTranscriptionTool._run (.ok (.obj kvs)) proc st = videoPathRequired := by
  rw [run_eval, h]
  rfl

lemma run_truthy (kvs : List (String × Json)) (proc : ProcResult) (st : DirState)
    (h : ((lookupList kvs "video_path").getD Json.null).truthy = true) :
    VideoTranscriptionTool._run (.ok (.obj kvs)) proc st =
      wrapTry (if proc.returncode = 0 then
          (locateStep artifactNameEnd crewaiSuccessRecord (procFailObj proc) st).1
        else pure (procFailObj proc)) := by
  rw [run_eval, h, if_pos rfl]

lemma run_rc_ne (kvs : List (String × Json)) (proc : ProcResult) (st : DirState)
    (hvp : ((lookupList kvs "video_path").getD Json.null).truthy = true)
    (h : ¬ proc.returncode = 0) :
    VideoTranscriptionTool._run (.ok (.obj kvs)) proc st = procFailObj proc := by
  rw [run_truthy kvs proc st hvp, if_neg h]
  rfl

lemma run_rc_eq (kvs : List (String × Json)) (proc : ProcResult) (st : DirState)
    (hvp : ((lookupList kvs "video_path").getD Json.null).truthy = true)
    (h0 : proc.returncode = 0) :
    VideoTranscriptionTool._run (.ok (.obj kvs)) proc st =
      wrapTry (locateStep artifactNameEnd crewaiSuccessRecord (procFailObj proc) st).1 := by
  rw [run_truthy kvs proc st hvp, if_pos h0]

lemma run_listdir_error (kvs : List (String × Json)) (proc : ProcResult) (m : String)
    (hvp : ((lookupList kvs "video_path").getD Json.null).truthy = true)
    (h0 : proc.returncode = 0) :
    VideoTranscriptionTool._run (.ok (.obj kvs)) proc (.error m) = exceptObj m := by
  rw [run_rc_eq kvs proc (.error m) hvp h0]
  rfl

lemma run_no_match (kvs : List (String × Json)) (proc : ProcResult)
    (entries : List FileEntry)
    (hvp : ((lookupList kvs "video_path").getD Json.null).truthy = true)
    (h0 : proc.returncode = 0)
    (hempty : entries.filter (fun f => strEndsWith f.name artifactNameEnd) = []) :
    VideoTranscriptionTool._run (.ok (.obj kvs)) proc (.ok entries) = procFailObj proc := by
  rw [run_rc_eq kvs proc (.ok entries) hvp h0, locateStep_ok,
    selectStage_none _ _ _ _ _ (by rw [hempty]; rfl)]
  rfl

lemma run_sel (kvs : List (String × Json)) (proc : ProcResult)
    (entries : List FileEntry) (e : FileEntry)
    (hvp : ((lookupList kvs "video_path").getD Json.null).truthy = true)
    (h0 : proc.returncode = 0)
    (hsel : pyMaxBy (fun f => f.ctime)
      (entries.filter (fun f => strEndsWith f.name artifactNameEnd)) = some e) :
    VideoTranscriptionTool._run (.ok (.obj kvs)) proc (.ok entries) =
      wrapTry (e.parse >>= crewaiSuccessRecord) := by
  rw [run_rc_eq kvs proc (.ok entries) hvp h0, locateStep_ok,
    selectStage_some _ _ _ _ _ e hsel]

/-! ### Shape of every value the two methods can return -/

lemma autogenSuccessRecord_ok {d r : Json} (h : autogenSuccessRecord d = .ok r) :
    ∃ t s kp tp se, r = .obj [("success", .bool true), ("transcription", t),
      ("summary", s), ("keyPoints", kp), ("topics", tp), ("sentiment", se)] := by
  unfold autogenSuccessRecord at h
  obtain ⟨enh, h1, h⟩ := bind_ok_inv h
  obtain ⟨enhText, h2, h⟩ := bind_ok_inv h
  obtain ⟨t, h3, h⟩ := bind_ok_inv h
  obtain ⟨s, h4, h⟩ := bind_ok_inv h
  obtain ⟨kp, h5, h⟩ := bind_ok_inv h
  obtain ⟨tp, h6, h⟩ := bind_ok_inv h
  obtain ⟨se, h7, h⟩ := bind_ok_inv h
  exact ⟨t, s, kp, tp, se, (Except.ok.inj h).symm⟩

lemma crewaiSuccessRecord_ok {d r : Json} (h : crewaiSuccessRecord d = .ok r) :
    ∃ t s kp tp se c ofl, r = .obj [("success", .bool true), ("transcription", t),
      ("summary", s), ("key_points", kp), ("topics", tp), ("sentiment", se),
      ("confidence", c), ("output_files", ofl)] := by
  unfold crewaiSuccessRecord at h
  obtain ⟨enh, h1, h⟩ := bind_ok_inv h
  obtain ⟨tsec, h2, h⟩ := bind_ok_inv h
  obtain ⟨enhText, h3, h⟩ := bind_ok_inv h
  obtain ⟨t, h4, h⟩ := bind_ok_inv h
  obtain ⟨s, h5, h⟩ := bind_ok_inv h
  obtain ⟨kp, h6, h⟩ := bind_ok_inv h
  obtain ⟨tp, h7, h⟩ := bind_ok_inv h
  obtain ⟨se, h8, h⟩ := bind_ok_inv h
  obtain ⟨c, h9, h⟩ := bind_ok_inv h
  obtain ⟨md, h10, h⟩ := bind_ok_inv h
  obtain ⟨po, h11, h⟩ := bind_ok_inv h
  obtain ⟨ofl, h12, h⟩ := bind_ok_inv h
  exact ⟨t, s, kp, tp, se, c, ofl, (Except.ok.inj h).symm⟩

lemma transcribe_video_shape (proc : ProcResult) (st : DirState) :
    VideoTranscriptionCapability.transcribe_video proc st = procFailObj proc ∨
    (∃ m, VideoTranscriptionCapability.transcribe_video proc st = exceptObj m) ∨
    (∃ d r, autogenSuccessRecord d = .ok r ∧
      VideoTranscriptionCapability.transcribe_video proc st = r) := by
  by_cases h0 : proc.returncode = 0
  · cases st with
    | error m => right; left; exact ⟨m, transcribe_video_listdir_error proc m h0⟩
    | ok entries =>
      cases hmx : pyMaxBy (fun f => f.ctime)
          (entries.filter (fun f => strEndsWith f.name artifactNameEnd)) with
      | none =>
        left
        exact transcribe_video_no_match proc entries h0 ((pyMaxBy_none_iff _ _).mp hmx)
      | some e =>
        have hv := transcribe_video_sel proc entries e h0 hmx
        cases hp : e.parse with
        | error m => right; left; exact ⟨m, by rw [hv, hp]; rfl⟩
        | ok d =>
          rw [hp, except_bind_ok] at hv
          cases hr : autogenSuccessRecord d with
          | error m => right; left; exact ⟨m, by rw [hv, hr]; rfl⟩
          | ok r => right; right; exact ⟨d, r, hr, by rw [hv, hr]; rfl⟩
  · left; exact transcribe_video_rc_ne proc st h0

lemma run_shape (inp : Except String Json) (proc : ProcResult) (st : DirState) :
    VideoTranscriptionTool._run inp proc st = videoPathRequired ∨
    VideoTranscriptionTool._run inp proc st = procFailObj proc ∨
    (∃ m, VideoTranscriptionTool._run inp proc st = exceptObj m) ∨
    (∃ d r, crewaiSuccessRecord d = .ok r ∧
      VideoTranscriptionTool._run inp proc st = r) := by
  cases inp with
  | error m => right; right; left; exact ⟨m, rfl⟩
  | ok data =>
    cases data with
    | null => right; right; left; exact ⟨_, rfl⟩
    | bool b => right; right; left; exact ⟨_, rfl⟩
    | num n => right; right; left; exact ⟨_, rfl⟩
    | str s => right; right; left; exact ⟨_, rfl⟩
    | arr xs => right; right; left; exact ⟨_, rfl⟩
    | obj kvs =>
      cases hb : ((lookupList kvs "video_path").getD Json.null).truthy with
      | false => left; exact run_validation kvs proc st hb
      | true =>
        by_cases h0 : proc.returncode = 0
        · cases st with
          | error m => right; right; left; exact ⟨m, run_listdir_error kvs proc m hb h0⟩
          | ok entries =>
            cases hmx : pyMaxBy (fun f => f.ctime)
                (entries.filter (fun f => strEndsWith f.name artifactNameEnd)) with
            | none =>
              right; left
              exact run_no_match kvs proc entries hb h0 ((pyMaxBy_none_iff _ _).mp hmx)
            | some e =>
              have hv := run_sel kvs proc entries e hb h0 hmx
              cases hp : e.parse with
              | error m => right; right; left; exact ⟨m, by rw [hv, hp]; rfl⟩
              | ok d =>
                rw [hp, except_bind_ok] at hv
                cases hr : crewaiSuccessRecord d with
                | error m => right; right; left; exact ⟨m, by rw [hv, hr]; rfl⟩
                | ok r => right; right; right; exact ⟨d, r, hr, by rw [hv, hr]; rfl⟩
        · right; left; exact run_rc_ne kvs proc st hb h0

/-! ### Concrete fixtures used by counterexamples and witnesses -/

/-- Artifact document with both a raw full-text field (`"raw text"`) and
an enhanced-text field, the latter present but empty. -/
def artifactBothFields : Json := .obj [
  ("transcription", .obj [("fullText", .str "raw text")]),
  ("enhancement", .obj [("enhancedText", .str "")])]

/-- The fully-populated end-to-end artifact of spec section 8 (with an
integral confidence value). -/
def artifactFull : Json := .obj [
  ("transcription", .obj [("fullText", .str "hello world"), ("confidence", .num 1)]),
  ("enhancement", .obj [("enhancedText", .str "Hello, world."), ("summary", .str "greeting"),
     ("keyPoints", .arr [.str "greeting"]), ("topics", .arr [.str "intro"]),
     ("sentiment", .str "neutral")])]

/-- An artifact with neither a transcription nor an enhancement section. -/
def artifactBare : Json := .obj [("other", .null)]

/-- The record `autogenSuccessRecord` produces on `artifactFull`. -/
def autogenRecordFull : Json := .obj [("success", .bool true),
  ("transcription", .str "Hello, world."), ("summary", .str "greeting"),
  ("keyPoints", .arr [.str "greeting"]), ("topics", .arr [.str "intro"]),
  ("sentiment", .str "neutral")]

/-- The record `crewaiSuccessRecord` produces on `artifactFull`. -/
def crewaiRecordFull : Json := .obj [("success", .bool true),
  ("transcription", .str "Hello, world."), ("summary", .str "greeting"),
  ("key_points", .arr [.str "greeting"]), ("topics", .arr [.str "intro"]),
  ("sentiment", .str "neutral"), ("confidence", .num 1), ("output_files", .arr [])]

/-- The record `crewaiSuccessRecord` produces on `artifactBare`. -/
def crewaiRecordBare : Json := .obj [("success", .bool true), ("transcription", .str ""),
  ("summary", .str ""), ("key_points", .arr []), ("topics", .arr []),
  ("sentiment", .str "neutral"), ("confidence", .num 0), ("output_files", .arr [])]

/-- Artifact whose sections are present but partial: the enhancement
section holds only `enhancedText`, the transcription section only
`fullText`. -/
def artifactPartialEnh : Json := .obj [
  ("transcription", .obj [("fullText", .str "hi")]),
  ("enhancement", .obj [("enhancedText", .str "Hi!")])]

/-- The record `crewaiSuccessRecord` produces on `artifactPartialEnh`. -/
def crewaiRecordPartial : Json := .obj [("success", .bool true),
  ("transcription", .str "Hi!"), ("summary", .str ""), ("key_points", .arr []),
  ("topics", .arr []), ("sentiment", .str "neutral"), ("confidence", .num 0),
  ("output_files", .arr [])]

/-- The record `autogenSuccessRecord` produces on `artifactPartialEnh`. -/
def autogenRecordPartial : Json := .obj [("success", .bool true),
  ("transcription", .str "Hi!"), ("summary", .null), ("keyPoints", .arr []),
  ("topics", .arr []), ("sentiment", .null)]

/-- Matching artifact file created at t = 1. -/
def entryA : FileEntry := ⟨"a_transcription.json", 1, .ok artifactBothFields⟩

/-- Matching artifact file created at t = 2. -/
def entryB : FileEntry := ⟨"b_transcription.json", 2, .ok artifactFull⟩

/-- A directory entry whose name does not match the suffix convention. -/
def entryTxt : FileEntry := ⟨"notes.txt", 5, .ok .null⟩

/-- A matching artifact file whose content `json.load` rejects; its parse
outcome carries the exception text Python's JSON decoder produces. -/
def entryBad : FileEntry :=
  ⟨"bad_transcription.json", 3, .error "Expecting value: line 1 column 1 (char 0)"⟩

/-! ### Claims -/

/-- C1, counterexample to the claim as stated: the CrewAI tool's
input-validation return (`crewai-agent.py` line 39) is an invocation
result that reaches the caller, yet it carries no `success` flag at all,
so neither `success=true with transcription` nor `success=false with
error` holds of it — the dichotomy fails. -/
theorem C1_counterexample :
    VideoTranscriptionTool._run (.ok (.obj [])) ⟨0, ""⟩ (.ok []) = videoPathRequired ∧
    videoPathRequired.lookup "success" = none ∧
    resultInvariant videoPathRequired = false :=
  ⟨rfl, rfl, rfl⟩

/-- C1 amended: every result of `transcribe_video`, and every result of
`_run` other than the validation record `{"error": "video_path is
required"}` (which has no success flag), satisfies the dichotomy: a
boolean `success` field is present, and exactly one of {`success=true`
with a `transcription` field and no `error` field} or {`success=false`
with an `error` field and no `transcription` field} holds, field presence
being membership of the key in the returned dictionary. -/
theorem C1_amended_success_error_dichotomy (proc : ProcResult) (st : DirState)
    (inp : Except String Json) :
    resultInvariant (VideoTranscriptionCapability.transcribe_video proc st) = true ∧
    (VideoTranscriptionTool._run inp proc st = videoPathRequired ∨
     resultInvariant (VideoTranscriptionTool._run inp proc st) = true) := by
  constructor
  · rcases transcribe_video_shape proc st with h | ⟨m, h⟩ | ⟨d, r, hok, h⟩
    · rw [h]; rfl
    · rw [h]; rfl
    · rw [h]
      obtain ⟨t, s, kp, tp, se, rfl⟩ := autogenSuccessRecord_ok hok
      rfl
  · rcases run_shape inp proc st with h | h | ⟨m, h⟩ | ⟨d, r, hok, h⟩
    · exact Or.inl h
    · right; rw [h]; rfl
    · right; rw [h]; rfl
    · right; rw [h]
      obtain ⟨t, s, kp, tp, se, c, ofl, rfl⟩ := crewaiSuccessRecord_ok hok
      rfl

/-- C2, counterexample to the claim as stated: `artifactBothFields`
contains both a raw full-text field (`"raw text"`) and an enhanced-text
field (`""`), yet both scripts return the raw text as `transcription`,
because Python's `or` falls through on the falsy empty enhanced text. -/
theorem C2_counterexample :
    artifactBothFields.lookup "transcription" = some (.obj [("fullText", .str "raw text")]) ∧
    artifactBothFields.lookup "enhancement" = some (.obj [("enhancedText", .str "")]) ∧
    (VideoTranscriptionCapability.transcribe_video ⟨0, ""⟩
        (.ok [⟨"x_transcription.json", 1, .ok artifactBothFields⟩])).lookup "transcription"
      = some (.str "raw text") ∧
    (VideoTranscriptionTool._run (.ok (.obj [("video_path", .str "v.mp4")])) ⟨0, ""⟩
        (.ok [⟨"x_transcription.json", 1, .ok artifactBothFields⟩])).lookup "transcription"
      = some (.str "raw text") ∧
    ("raw text" : String) ≠ "" :=
  ⟨rfl, rfl, rfl, rfl, by decide⟩

/-- C2 amended: whenever the artifact's enhancement section yields an
enhanced text that is truthy (in particular non-empty and non-null), both
normalizers return exactly that enhanced text as `transcription`, never
the raw text. -/
theorem C2_amended_truthy_enhanced_wins (data enh et : Json)
    (h1 : pyGet data "enhancement" (.obj []) = .ok enh)
    (h2 : pyGet enh "enhancedText" .null = .ok et)
    (ht : et.truthy = true) :
    (∀ r, autogenSuccessRecord data = .ok r → r.lookup "transcription" = some et) ∧
    (∀ r, crewaiSuccessRecord data = .ok r → r.lookup "transcription" = some et) := by
  constructor
  · intro r h
    unfold autogenSuccessRecord at h
    rw [h1] at h
    simp only [except_bind_ok] at h
    rw [h2] at h
    simp only [except_bind_ok] at h
    unfold autogenTranscriptionText at h
    rw [if_pos ht] at h
    simp only [except_pure_bind] at h
    obtain ⟨s, g4, h⟩ := bind_ok_inv h
    obtain ⟨kp, g5, h⟩ := bind_ok_inv h
    obtain ⟨tp, g6, h⟩ := bind_ok_inv h
    obtain ⟨se, g7, h⟩ := bind_ok_inv h
    obtain rfl := (Except.ok.inj h).symm
    rfl
  · intro r h
    unfold crewaiSuccessRecord at h
    rw [h1] at h
    simp only [except_bind_ok] at h
    obtain ⟨tsec, g2, h⟩ := bind_ok_inv h
    rw [h2] at h
    simp only [except_bind_ok] at h
    unfold crewaiTranscriptionText at h
    rw [if_pos ht] at h
    simp only [except_pure_bind] at h
    obtain ⟨s, g5, h⟩ := bind_ok_inv h
    obtain ⟨kp, g6, h⟩ := bind_ok_inv h
    obtain ⟨tp, g7, h⟩ := bind_ok_inv h
    obtain ⟨se, g8, h⟩ := bind_ok_inv h
    obtain ⟨c, g9, h⟩ := bind_ok_inv h
    obtain ⟨md, g10, h⟩ := bind_ok_inv h
    obtain ⟨po, g11, h⟩ := bind_ok_inv h
    obtain ⟨ofl, g12, h⟩ := bind_ok_inv h
    obtain rfl := (Except.ok.inj h).symm
    rfl

/-- C2 witness: on the fully-populated artifact the enhanced text
`"Hello, world."` is truthy and both records return it. -/
theorem C2_witness :
    (Json.str "Hello, world.").truthy = true ∧
    autogenRecordFull.lookup "transcription" = some (.str "Hello, world.") ∧
    crewaiRecordFull.lookup "transcription" = some (.str "Hello, world.") :=
  ⟨rfl,
   (C2_amended_truthy_enhanced_wins artifactFull
      (.obj [("enhancedText", .str "Hello, world."), ("summary", .str "greeting"),
        ("keyPoints", .arr [.str "greeting"]), ("topics", .arr [.str "intro"]),
        ("sentiment", .str "neutral")])
      (.str "Hello, world.") rfl rfl rfl).1 autogenRecordFull rfl,
   (C2_amended_truthy_enhanced_wins artifactFull
      (.obj [("enhancedText", .str "Hello, world."), ("summary", .str "greeting"),
        ("keyPoints", .arr [.str "greeting"]), ("topics", .arr [.str "intro"]),
        ("sentiment", .str "neutral")])
      (.str "Hello, world.") rfl rfl rfl).2 crewaiRecordFull rfl⟩

/-- C3, counterexample to the claim as stated: on the spec's own
end-to-end artifact, the CrewAI success record omits the `error` field
entirely and carries an extra `output_files` field, and the AutoGen
success record names the key-points field `keyPoints` (not `key_points`)
and has neither a `confidence` nor an `error` field — so no success record
contains exactly the claimed field set. -/
theorem C3_counterexample :
    VideoTranscriptionTool._run (.ok (.obj [("video_path", .str "v.mp4")])) ⟨0, ""⟩
        (.ok [⟨"x_transcription.json", 1, .ok artifactFull⟩]) = crewaiRecordFull ∧
    crewaiRecordFull.lookup "success" = some (.bool true) ∧
    crewaiRecordFull.hasKey "error" = false ∧
    crewaiRecordFull.hasKey "output_files" = true ∧
    VideoTranscriptionCapability.transcribe_video ⟨0, ""⟩
        (.ok [⟨"x_transcription.json", 1, .ok artifactFull⟩]) = autogenRecordFull ∧
    autogenRecordFull.lookup "success" = some (.bool true) ∧
    autogenRecordFull.hasKey "key_points" = false ∧
    autogenRecordFull.hasKey "keyPoints" = true ∧
    autogenRecordFull.hasKey "confidence" = false ∧
    autogenRecordFull.hasKey "error" = false :=
  ⟨rfl, rfl, rfl, rfl, rfl, rfl, rfl, rfl, rfl, rfl⟩

/-- C3 amended: every CrewAI success record has exactly the fields
`success, transcription, summary, key_points, topics, sentiment,
confidence, output_files` (no `error` field), and the defaults are
per-field, covering absent and present-but-partial sections alike: a
`summary`/`keyPoints`/`topics`/`sentiment` key absent from the resolved
enhancement section yields `''`/`[]`/`[]`/`'neutral'`, a `confidence` key
absent from the resolved transcription section yields `0`, and an
`outputFiles` key absent from the resolved `metadata.processingOptions`
section yields `[]`.  Every AutoGen success record has exactly the fields
`success, transcription, summary, keyPoints, topics, sentiment` (no
confidence or error field), with per-field defaults `null` for absent
summary/sentiment and `[]` for absent keyPoints/topics. -/
theorem C3_amended_record_shape (d r enh tsec md po : Json) :
    (crewaiSuccessRecord d = .ok r →
      r.keys = ["success", "transcription", "summary", "key_points", "topics",
        "sentiment", "confidence", "output_files"] ∧
      (pyGet d "enhancement" (.obj []) = .ok enh →
        (enh.lookup "summary" = none → r.lookup "summary" = some (.str "")) ∧
        (enh.lookup "keyPoints" = none → r.lookup "key_points" = some (.arr [])) ∧
        (enh.lookup "topics" = none → r.lookup "topics" = some (.arr [])) ∧
        (enh.lookup "sentiment" = none → r.lookup "sentiment" = some (.str "neutral"))) ∧
      (pyGet d "transcription" (.obj []) = .ok tsec →
        tsec.lookup "confidence" = none → r.lookup "confidence" = some (.num 0)) ∧
      (pyGet d "metadata" (.obj []) = .ok md →
        pyGet md "processingOptions" (.obj []) = .ok po →
        po.lookup "outputFiles" = none → r.lookup "output_files" = some (.arr []))) ∧
    (autogenSuccessRecord d = .ok r →
      r.keys = ["success", "transcription", "summary", "keyPoints", "topics", "sentiment"] ∧
      (pyGet d "enhancement" (.obj []) = .ok enh →
        (enh.lookup "summary" = none → r.lookup "summary" = some .null) ∧
        (enh.lookup "keyPoints" = none → r.lookup "keyPoints" = some (.arr [])) ∧
        (enh.lookup "topics" = none → r.lookup "topics" = some (.arr [])) ∧
        (enh.lookup "sentiment" = none → r.lookup "sentiment" = some .null))) := by
  constructor
  · intro h
    unfold crewaiSuccessRecord at h
    obtain ⟨enhS, g1, h⟩ := bind_ok_inv h
    obtain ⟨tsecS, g2, h⟩ := bind_ok_inv h
    obtain ⟨enhText, g3, h⟩ := bind_ok_inv h
    obtain ⟨t, g4, h⟩ := bind_ok_inv h
    obtain ⟨s, g5, h⟩ := bind_ok_inv h
    obtain ⟨kp, g6, h⟩ := bind_ok_inv h
    obtain ⟨tp, g7, h⟩ := bind_ok_inv h
    obtain ⟨se, g8, h⟩ := bind_ok_inv h
    obtain ⟨c, g9, h⟩ := bind_ok_inv h
    obtain ⟨mdS, g10, h⟩ := bind_ok_inv h
    obtain ⟨poS, g11, h⟩ := bind_ok_inv h
    obtain ⟨ofl, g12, h⟩ := bind_ok_inv h
    obtain rfl := (Except.ok.inj h).symm
    refine ⟨rfl, ?_, ?_, ?_⟩
    · intro hE
      rw [g1] at hE
      obtain rfl := Except.ok.inj hE
      obtain ⟨kvsE, rfl, -⟩ := pyGet_ok_inv g3
      refine ⟨?_, ?_, ?_, ?_⟩
      · intro habs
        have habs2 : lookupList kvsE "summary" = none := habs
        obtain rfl := pyGet_absent g5 habs2
        rfl
      · intro habs
        have habs2 : lookupList kvsE "keyPoints" = none := habs
        obtain rfl := pyGet_absent g6 habs2
        rfl
      · intro habs
        have habs2 : lookupList kvsE "topics" = none := habs
        obtain rfl := pyGet_absent g7 habs2
        rfl
      · intro habs
        have habs2 : lookupList kvsE "sentiment" = none := habs
        obtain rfl := pyGet_absent g8 habs2
        rfl
    · intro hT habs
      rw [g2] at hT
      obtain rfl := Except.ok.inj hT
      obtain ⟨kvsT, rfl, -⟩ := pyGet_ok_inv g9
      have habs2 : lookupList kvsT "confidence" = none := habs
      obtain rfl := pyGet_absent g9 habs2
      rfl
    · intro hM hP habs
      rw [g10] at hM
      obtain rfl := Except.ok.inj hM
      rw [g11] at hP
      obtain rfl := Except.ok.inj hP
      obtain ⟨kvsP, rfl, -⟩ := pyGet_ok_inv g12
      have habs2 : lookupList kvsP "outputFiles" = none := habs
      obtain rfl := pyGet_absent g12 habs2
      rfl
  · intro h
    unfold autogenSuccessRecord at h
    obtain ⟨enhS, g1, h⟩ := bind_ok_inv h
    obtain ⟨enhText, g2, h⟩ := bind_ok_inv h
    obtain ⟨t, g3, h⟩ := bind_ok_inv h
    obtain ⟨s, g4, h⟩ := bind_ok_inv h
    obtain ⟨kp, g5, h⟩ := bind_ok_inv h
    obtain ⟨tp, g6, h⟩ := bind_ok_inv h
    obtain ⟨se, g7, h⟩ := bind_ok_inv h
    obtain rfl := (Except.ok.inj h).symm
    refine ⟨rfl, ?_⟩
    intro hE
    rw [g1] at hE
    obtain rfl := Except.ok.inj hE
    obtain ⟨kvsE, rfl, -⟩ := pyGet_ok_inv g2
    refine ⟨?_, ?_, ?_, ?_⟩
    · intro habs
      have habs2 : lookupList kvsE "summary" = none := habs
      obtain rfl := pyGet_absent g4 habs2
      rfl
    · intro habs
      have habs2 : lookupList kvsE "keyPoints" = none := habs
      obtain rfl := pyGet_absent g5 habs2
      rfl
    · intro habs
      have habs2 : lookupList kvsE "topics" = none := habs
      obtain rfl := pyGet_absent g6 habs2
      rfl
    · intro habs
      have habs2 : lookupList kvsE "sentiment" = none := habs
      obtain rfl := pyGet_absent g7 habs2
      rfl

/-- C3 witness: the amended shape and per-field defaults, instantiated on
an artifact whose enhancement and transcription sections are present but
partial (only `enhancedText` resp. `fullText`), for both scripts, and on
the bare artifact with no sections at all. -/
theorem C3_witness :
    crewaiRecordPartial.keys = ["success", "transcription", "summary", "key_points",
      "topics", "sentiment", "confidence", "output_files"] ∧
    crewaiRecordPartial.lookup "summary" = some (.str "") ∧
    crewaiRecordPartial.lookup "key_points" = some (.arr []) ∧
    crewaiRecordPartial.lookup "topics" = some (.arr []) ∧
    crewaiRecordPartial.lookup "sentiment" = some (.str "neutral") ∧
    crewaiRecordPartial.lookup "confidence" = some (.num 0) ∧
    crewaiRecordPartial.lookup "output_files" = some (.arr []) ∧
    crewaiRecordBare.lookup "sentiment" = some (.str "neutral") ∧
    autogenRecordPartial.keys = ["success", "transcription", "summary", "keyPoints",
      "topics", "sentiment"] ∧
    autogenRecordPartial.lookup "summary" = some .null ∧
    autogenRecordPartial.lookup "keyPoints" = some (.arr []) ∧
    autogenRecordPartial.lookup "topics" = some (.arr []) ∧
    autogenRecordPartial.lookup "sentiment" = some .null := by
  have h := C3_amended_record_shape artifactPartialEnh crewaiRecordPartial
    (.obj [("enhancedText", .str "Hi!")]) (.obj [("fullText", .str "hi")])
    (.obj []) (.obj [])
  have h2 := C3_amended_record_shape artifactPartialEnh autogenRecordPartial
    (.obj [("enhancedText", .str "Hi!")]) (.obj [("fullText", .str "hi")])
    (.obj []) (.obj [])
  have h3 := C3_amended_record_shape artifactBare crewaiRecordBare
    (.obj []) (.obj []) (.obj []) (.obj [])
  have hc := h.1 rfl
  have he := hc.2.1 rfl
  have ha := h2.2 rfl
  have hae := ha.2 rfl
  have hb := (h3.1 rfl).2.1 rfl
  exact ⟨hc.1, he.1 rfl, he.2.1 rfl, he.2.2.1 rfl, he.2.2.2 rfl,
    hc.2.2.1 rfl rfl, hc.2.2.2 rfl rfl rfl, hb.2.2.2 rfl,
    ha.1, hae.1 rfl, hae.2.1 rfl, hae.2.2.1 rfl, hae.2.2.2 rfl⟩

/-- C4: with a zero exit status, when a matching entry `e` strictly
dominates the creation time of every other matching entry, both scripts
select exactly `e` and the returned record is computed from the content of
`e` (parse outcome fed to the respective normalizer). -/
theorem C4_latest_artifact_wins (proc : ProcResult) (entries : List FileEntry) (e : FileEntry)
    (h0 : proc.returncode = 0) (hmem : e ∈ entries)
    (hsfx : strEndsWith e.name artifactNameEnd = true)
    (hmax : ∀ f ∈ entries, strEndsWith f.name artifactNameEnd = true →
      f ≠ e → f.ctime < e.ctime) :
    pyMaxBy (fun f => f.ctime)
      (entries.filter (fun f => strEndsWith f.name artifactNameEnd)) = some e ∧
    VideoTranscriptionCapability.transcribe_video proc (.ok entries)
      = wrapTry (e.parse >>= autogenSuccessRecord) ∧
    ∀ kvs : List (String × Json),
      ((lookupList kvs "video_path").getD Json.null).truthy = true →
      VideoTranscriptionTool._run (.ok (.obj kvs)) proc (.ok entries)
        = wrapTry (e.parse >>= crewaiSuccessRecord) := by
  have hsel : pyMaxBy (fun f => f.ctime)
      (entries.filter (fun f => strEndsWith f.name artifactNameEnd)) = some e := by
    apply pyMaxBy_unique_max
    · exact List.mem_filter.mpr ⟨hmem, hsfx⟩
    · intro f hf hne
      have hm := List.mem_filter.mp hf
      exact hmax f hm.1 hm.2 hne
  refine ⟨hsel, transcribe_video_sel proc entries e h0 hsel, ?_⟩
  intro kvs hvp
  exact run_sel kvs proc entries e hvp h0 hsel

/-- C4 witness: with matching artifacts created at t = 1 and t = 2, the
newer one (entryB, content `artifactFull`) is selected and its content is
returned. -/
theorem C4_witness :
    pyMaxBy (fun f => f.ctime)
      ([entryA, entryB].filter (fun f => strEndsWith f.name artifactNameEnd)) = some entryB ∧
    VideoTranscriptionCapability.transcribe_video ⟨0, ""⟩ (.ok [entryA, entryB])
      = autogenRecordFull := by
  have h := C4_latest_artifact_wins ⟨0, ""⟩ [entryA, entryB] entryB rfl
    (List.mem_cons_of_mem _ (List.mem_cons_self _ _))
    rfl
    (by
      intro f hf hsf hne
      rcases List.mem_cons.mp hf with rfl | hf2
      · exact (by decide : entryA.ctime < entryB.ctime)
      · rcases List.mem_cons.mp hf2 with rfl | hf3
        · exact absurd rfl hne
        · cases hf3)
  exact ⟨h.1, h.2.1.trans rfl⟩

/-- C5, counterexample to the claim as stated: with a zero exit status, an
empty stderr and an empty output directory, the returned record is
`{'success': False, 'error': 'Transcription failed'}` — the error is
neither `"NoArtifactFound"` nor `"IOUnavailable"`. -/
theorem C5_counterexample :
    VideoTranscriptionCapability.transcribe_video ⟨0, ""⟩ (.ok []) =
      .obj [("success", .bool false), ("error", .str "Transcription failed")] ∧
    ("Transcription failed" : String) ≠ "NoArtifactFound" ∧
    ("Transcription failed" : String) ≠ "IOUnavailable" :=
  ⟨rfl, by decide, by decide⟩

/-- C5 amended: with a zero exit status, when the directory holds no
matching artifact both scripts return `{'success': False, 'error':
result.stderr or 'Transcription failed'}`, and when the directory listing
itself raises with message `m` they return `{'success': False, 'error': m}`. -/
theorem C5_amended_fallback_error (proc : ProcResult) (entries : List FileEntry)
    (m : String) (kvs : List (String × Json))
    (h0 : proc.returncode = 0)
    (hempty : entries.filter (fun f => strEndsWith f.name artifactNameEnd) = [])
    (hvp : ((lookupList kvs "video_path").getD Json.null).truthy = true) :
    VideoTranscriptionCapability.transcribe_video proc (.ok entries) = procFailObj proc ∧
    VideoTranscriptionCapability.transcribe_video proc (.error m) = exceptObj m ∧
    VideoTranscriptionTool._run (.ok (.obj kvs)) proc (.ok entries) = procFailObj proc ∧
    VideoTranscriptionTool._run (.ok (.obj kvs)) proc (.error m) = exceptObj m :=
  ⟨transcribe_video_no_match proc entries h0 hempty,
   transcribe_video_listdir_error proc m h0,
   run_no_match kvs proc entries hvp h0 hempty,
   run_listdir_error kvs proc m hvp h0⟩

/-- C5 witness: a directory with only a non-matching file, and a listing
that raises `FileNotFoundError`. -/
theorem C5_witness :
    VideoTranscriptionCapability.transcribe_video ⟨0, ""⟩ (.ok [entryTxt]) =
      procFailObj ⟨0, ""⟩ ∧
    VideoTranscriptionCapability.transcribe_video ⟨0, ""⟩
        (.error "[Errno 2] No such file or directory: 'output'") =
      exceptObj "[Errno 2] No such file or directory: 'output'" ∧
    VideoTranscriptionTool._run (.ok (.obj [("video_path", .str "v.mp4")])) ⟨0, ""⟩
        (.ok [entryTxt]) = procFailObj ⟨0, ""⟩ ∧
    VideoTranscriptionTool._run (.ok (.obj [("video_path", .str "v.mp4")])) ⟨0, ""⟩
        (.error "[Errno 2] No such file or directory: 'output'") =
      exceptObj "[Errno 2] No such file or directory: 'output'" :=
  C5_amended_fallback_error ⟨0, ""⟩ [entryTxt]
    "[Errno 2] No such file or directory: 'output'"
    [("video_path", .str "v.mp4")] rfl rfl rfl

/-- C6, counterexample to the claim as stated: a matching artifact whose
content `json.load` rejects yields `{'success': False, 'error':
'Expecting value: line 1 column 1 (char 0)'}` — the decoder's own message,
not the string `"MalformedArtifact"`. -/
theorem C6_counterexample :
    VideoTranscriptionCapability.transcribe_video ⟨0, ""⟩ (.ok [entryBad]) =
      exceptObj "Expecting value: line 1 column 1 (char 0)" ∧
    ("Expecting value: line 1 column 1 (char 0)" : String) ≠ "MalformedArtifact" :=
  ⟨rfl, by decide⟩

/-- C6 amended: when the selected matching artifact's parse raises with
message `m`, both scripts return normally with the uniform record
`{'success': False, 'error': m}`; the parse exception never escapes. -/
theorem C6_amended_parse_error_recovered (proc : ProcResult) (entries : List FileEntry)
    (e : FileEntry) (m : String) (kvs : List (String × Json))
    (h0 : proc.returncode = 0)
    (hsel : pyMaxBy (fun f => f.ctime)
      (entries.filter (fun f => strEndsWith f.name artifactNameEnd)) = some e)
    (hparse : e.parse = .error m)
    (hvp : ((lookupList kvs "video_path").getD Json.null).truthy = true) :
    VideoTranscriptionCapability.transcribe_video proc (.ok entries) = exceptObj m ∧
    VideoTranscriptionTool._run (.ok (.obj kvs)) proc (.ok entries) = exceptObj m := by
  have a := transcribe_video_sel proc entries e h0 hsel
  have b := run_sel kvs proc entries e hvp h0 hsel
  rw [hparse] at a b
  exact ⟨a.trans rfl, b.trans rfl⟩

/-- C6 witness: the unparsable matching artifact `entryBad`. -/
theorem C6_witness :
    VideoTranscriptionCapability.transcribe_video ⟨0, ""⟩ (.ok [entryBad]) =
      exceptObj "Expecting value: line 1 column 1 (char 0)" ∧
    VideoTranscriptionTool._run (.ok (.obj [("video_path", .str "v.mp4")])) ⟨0, ""⟩
        (.ok [entryBad]) = exceptObj "Expecting value: line 1 column 1 (char 0)" :=
  C6_amended_parse_error_recovered ⟨0, ""⟩ [entryBad] entryBad
    "Expecting value: line 1 column 1 (char 0)"
    [("video_path", .str "v.mp4")] rfl rfl rfl rfl

/-- C7: for each of the four failure kinds — non-zero exit status,
unlistable directory, no matching artifact, unparsable selected artifact —
both methods return normally with the uniform record shape
`{'success': False, 'error': <string>}`; no exception propagates (the
model functions are total and every failure path lands in this shape). -/
theorem C7_uniform_failure (proc : ProcResult) (st : DirState) (kvs : List (String × Json))
    (hvp : ((lookupList kvs "video_path").getD Json.null).truthy = true)
    (hfail : proc.returncode ≠ 0 ∨
      (∃ m, st = .error m) ∨
      (∃ entries, st = .ok entries ∧
        entries.filter (fun f => strEndsWith f.name artifactNameEnd) = []) ∨
      (∃ entries e m, st = .ok entries ∧
        pyMaxBy (fun f => f.ctime)
          (entries.filter (fun f => strEndsWith f.name artifactNameEnd)) = some e ∧
        e.parse = .error m)) :
    isFailureRecord (VideoTranscriptionCapability.transcribe_video proc st) = true ∧
    isFailureRecord (VideoTranscriptionTool._run (.ok (.obj kvs)) proc st) = true := by
  rcases hfail with h | ⟨m, rfl⟩ | ⟨entries, rfl, hempty⟩ | ⟨entries, e, m, rfl, hsel, hparse⟩
  · rw [transcribe_video_rc_ne proc st h, run_rc_ne kvs proc st hvp h]
    exact ⟨rfl, rfl⟩
  · by_cases h0 : proc.returncode = 0
    · rw [transcribe_video_listdir_error proc m h0, run_listdir_error kvs proc m hvp h0]
      exact ⟨rfl, rfl⟩
    · rw [transcribe_video_rc_ne proc _ h0, run_rc_ne kvs proc _ hvp h0]
      exact ⟨rfl, rfl⟩
  · by_cases h0 : proc.returncode = 0
    · rw [transcribe_video_no_match proc entries h0 hempty,
        run_no_match kvs proc entries hvp h0 hempty]
      exact ⟨rfl, rfl⟩
    · rw [transcribe_video_rc_ne proc _ h0, run_rc_ne kvs proc _ hvp h0]
      exact ⟨rfl, rfl⟩
  · by_cases h0 : proc.returncode = 0
    · have a := transcribe_video_sel proc entries e h0 hsel
      have b := run_sel kvs proc entries e hvp h0 hsel
      rw [hparse] at a b
      rw [a, b]
      exact ⟨rfl, rfl⟩
    · rw [transcribe_video_rc_ne proc _ h0, run_rc_ne kvs proc _ hvp h0]
      exact ⟨rfl, rfl⟩

/-- C7 witness: a failed external process (exit status 1). -/
theorem C7_witness :
    isFailureRecord (VideoTranscriptionCapability.transcribe_video ⟨1, "boom"⟩ (.ok [])) = true ∧
    isFailureRecord (VideoTranscriptionTool._run
      (.ok (.obj [("video_path", .str "v.mp4")])) ⟨1, "boom"⟩ (.ok [])) = true :=
  C7_uniform_failure ⟨1, "boom"⟩ (.ok []) [("video_path", .str "v.mp4")] rfl
    (Or.inl (by decide))

/-- C8, counterexample to the claim as stated: a non-zero exit status with
an EMPTY stderr returns the error message `'Transcription failed'`, which
is not the process's standard-error text (the empty string). -/
theorem C8_counterexample :
    VideoTranscriptionCapability.transcribe_video ⟨1, ""⟩ (.ok []) =
      .obj [("success", .bool false), ("error", .str "Transcription failed")] ∧
    ("Transcription failed" : String) ≠ "" :=
  ⟨rfl, by decide⟩

/-- C8 amended: a non-zero exit status short-circuits — the result does
not depend on the output-directory state at all (the locate step is not
consulted) and the returned record is `{'success': False, 'error':
result.stderr or 'Transcription failed'}`: stderr when non-empty,
otherwise the fixed fallback message. -/
theorem C8_amended_short_circuit (proc : ProcResult) (st st2 : DirState)
    (kvs : List (String × Json))
    (h : proc.returncode ≠ 0)
    (hvp : ((lookupList kvs "video_path").getD Json.null).truthy = true) :
    VideoTranscriptionCapability.transcribe_video proc st = procFailObj proc ∧
    VideoTranscriptionCapability.transcribe_video proc st =
      VideoTranscriptionCapability.transcribe_video proc st2 ∧
    VideoTranscriptionTool._run (.ok (.obj kvs)) proc st = procFailObj proc ∧
    VideoTranscriptionTool._run (.ok (.obj kvs)) proc st =
      VideoTranscriptionTool._run (.ok (.obj kvs)) proc st2 := by
  have a1 := transcribe_video_rc_ne proc st h
  have a2 := transcribe_video_rc_ne proc st2 h
  have b1 := run_rc_ne kvs proc st hvp h
  have b2 := run_rc_ne kvs proc st2 hvp h
  exact ⟨a1, a1.trans a2.symm, b1, b1.trans b2.symm⟩

/-- C8 witness: exit status 2 with stderr `"boom"`; the result is the same
whether the directory is empty or unlistable. -/
theorem C8_witness :
    VideoTranscriptionCapability.transcribe_video ⟨2, "boom"⟩ (.ok []) =
      procFailObj ⟨2, "boom"⟩ ∧
    VideoTranscriptionCapability.transcribe_video ⟨2, "boom"⟩ (.ok []) =
      VideoTranscriptionCapability.transcribe_video ⟨2, "boom"⟩ (.error "gone") ∧
    VideoTranscriptionTool._run (.ok (.obj [("video_path", .str "v.mp4")])) ⟨2, "boom"⟩
        (.ok []) = procFailObj ⟨2, "boom"⟩ ∧
    VideoTranscriptionTool._run (.ok (.obj [("video_path", .str "v.mp4")])) ⟨2, "boom"⟩
        (.ok []) =
      VideoTranscriptionTool._run (.ok (.obj [("video_path", .str "v.mp4")])) ⟨2, "boom"⟩
        (.error "gone") :=
  C8_amended_short_circuit ⟨2, "boom"⟩ (.ok []) (.error "gone")
    [("video_path", .str "v.mp4")] (by decide) rfl

/-- C9: the locate-and-normalize step is read-only and deterministic: it
returns the directory state unchanged, and invoking it again on the state
left behind by a first invocation yields a bit-identical result pair
(record and state), for both scripts' normalizers. -/
theorem C9_locate_idempotent (proc : ProcResult) (st : DirState) :
    ((locateStep artifactNameEnd autogenSuccessRecord (procFailObj proc) st).2 = st ∧
      locateStep artifactNameEnd autogenSuccessRecord (procFailObj proc)
          ((locateStep artifactNameEnd autogenSuccessRecord (procFailObj proc) st).2)
        = locateStep artifactNameEnd autogenSuccessRecord (procFailObj proc) st) ∧
    ((locateStep artifactNameEnd crewaiSuccessRecord (procFailObj proc) st).2 = st ∧
      locateStep artifactNameEnd crewaiSuccessRecord (procFailObj proc)
          ((locateStep artifactNameEnd crewaiSuccessRecord (procFailObj proc) st).2)
        = locateStep artifactNameEnd crewaiSuccessRecord (procFailObj proc) st) := by
  have h1 := locateStep_snd artifactNameEnd autogenSuccessRecord (procFailObj proc) st
  have h2 := locateStep_snd artifactNameEnd crewaiSuccessRecord (procFailObj proc) st
  exact ⟨⟨h1, by rw [h1]⟩, ⟨h2, by rw [h2]⟩⟩

/-- C10: whenever the CrewAI tool's input parses to a JSON object whose
`video_path` entry is absent or falsy, `_run` returns exactly the
dictionary `{"error": "video_path is required"}` — a record with a single
`error` key that carries no `success` flag and none of the uniform
ResultRecord fields. -/
theorem C10_video_path_required (proc : ProcResult) (st : DirState)
    (kvs : List (String × Json))
    (h : ((lookupList kvs "video_path").getD Json.null).truthy = false) :
    VideoTranscriptionTool._run (.ok (.obj kvs)) proc st = videoPathRequired ∧
    videoPathRequired.keys = ["error"] ∧
    videoPathRequired.hasKey "success" = false ∧
    videoPathRequired.hasKey "transcription" = false :=
  ⟨run_validation kvs proc st h, rfl, rfl, rfl⟩

/-- C10 witness: an input object with no `video_path` key. -/
theorem C10_witness :
    VideoTranscriptionTool._run (.ok (.obj [("enhance", .bool true)])) ⟨0, "x"⟩ (.ok []) =
      videoPathRequired ∧
    videoPathRequired.keys = ["error"] ∧
    videoPathRequired.hasKey "success" = false ∧
    videoPathRequired.hasKey "transcription" = false :=
  C10_video_path_required ⟨0, "x"⟩ (.ok []) [("enhance", .bool true)] rfl

end VideoTranscribe
